import Mathlib

/-!
Verification of the telemetry acquisition state machine and its
authenticated sync dispatcher of the tracker-desktop repository.

The Rust sources are shallowly embedded:
  * `src-tauri/src/telemetry.rs` — `TelemetryReader` with `connect`,
    `cleanup`, `update`; Windows API calls (OpenFileMappingA,
    MapViewOfFile, UnmapViewOfFile, CloseHandle) are modelled by an
    oracle `WinEnv` giving the outcome of each OS call, and the calls
    actually issued are recorded in a `WinAct` trace.
  * `src-tauri/src/auth.rs` — `Session`, `AuthManager`; the clock
    (chrono Utc now) is passed explicitly as an integer timestamp.
  * `src-tauri/src/commands.rs` — the poll/dispatch loop body of
    `start_telemetry`, embedded as a function producing the ordered
    list of actions one iteration performs, and the first step of
    `verify_device_code` (the byte slice of the code used for logging).
  * `src-tauri/src/sync.rs` — the `JobSubmission` payload shape.

Machine integers (u32, u64) carry no arithmetic in the modelled code, so
they are embedded as `Nat`. Timestamps are embedded as `Int`. The f32
field `speed` is embedded as `Float` (it is only ever the constant 0.0
and no claim touches it); the f64 fields `revenue` and `damage_percent`
of `JobSubmission` are embedded as `Nat` carrying the exact integer the
code casts from (`job.revenue as f64` and the literal 0.0) — no claim
depends on floating point rounding.
-/

/-- Game type (`telemetry.rs`, enum `Game`). -/
inductive Game where
  | ets2
  | ats
deriving DecidableEq, Repr

/-- Active job information from telemetry (`telemetry.rs`, struct
`ActiveJob`). `started_at` is a chrono timestamp, embedded as `Int`. -/
structure ActiveJob where
  cargo : String
  source_city : String
  destination_city : String
  distance_km : Nat
  distance_remaining : Nat
  revenue : Nat
  started_at : Int
deriving DecidableEq, Repr

/-- Current telemetry state (`telemetry.rs`, struct `TelemetryState`). -/
structure TelemetryState where
  connected : Bool
  game : Option Game
  speed : Float
  current_city : Option String
  active_job : Option ActiveJob

/-- Default telemetry state (`impl Default for TelemetryState`). -/
def TelemetryState.default : TelemetryState :=
  { connected := false
    game := none
    speed := 0.0
    current_city := none
    active_job := none }

/-- Telemetry events (`telemetry.rs`, enum `TelemetryEvent`). -/
inductive TelemetryEvent where
  | connected (g : Game)
  | disconnected
  | jobStarted
  | jobCompleted (job : ActiveJob)
deriving DecidableEq, Repr

/-- The reader (`telemetry.rs`, struct `TelemetryReader`). The Windows
HANDLE `map_handle` is embedded by its validity (`false` = the invalid
`HANDLE::default()`), and the raw view pointer `map_view` by whether it
is non-null (`false` = null). -/
structure TelemetryReader where
  state : TelemetryState
  map_handle : Bool
  map_view : Bool
  job_started : Bool

/-- Fresh reader (`TelemetryReader::new`). -/
def TelemetryReader.new : TelemetryReader :=
  { state := TelemetryState.default
    map_handle := false
    map_view := false
    job_started := false }

/-- Oracle for the outcome of the Windows shared-memory calls made
during one `connect` attempt: `openRes = none` means `OpenFileMappingA`
returned `Err`; `openRes = some v` means it returned `Ok` with a handle
whose `is_invalid()` is `!v`; `mapOk` tells whether `MapViewOfFile`
returned a non-null view. -/
structure WinEnv where
  openRes : Option Bool
  mapOk : Bool
deriving DecidableEq, Repr

/-- The Windows API calls the reader can issue, recorded as a trace. -/
inductive WinAct where
  | openMapping
  | mapFile
  | unmapFile
  | closeHandle
deriving DecidableEq, Repr

/-- Result of a `connect` attempt: the returned bool, the reader after
the call, and the OS calls issued, in order. -/
structure ConnectResult where
  ok : Bool
  reader : TelemetryReader
  trace : List WinAct

/-- `TelemetryReader::connect` (`telemetry.rs` lines 110-159, Windows
branch). Already connected (valid handle and non-null view): return
true at once, issuing no OS call. Otherwise call `OpenFileMappingA`;
on `Err` set `state.connected = false` and return false; on `Ok` with
an invalid handle return false unchanged; else call `MapViewOfFile`;
a null view closes the handle and returns false; a non-null view is
stored together with the handle, `state.connected` is set, true is
returned. -/
def TelemetryReader.connect (env : WinEnv) (r : TelemetryReader) : ConnectResult :=
  if r.map_handle && r.map_view then
    { ok := true, reader := r, trace := [] }
  else
    match env.openRes with
    | some hvalid =>
        if !hvalid then
          { ok := false, reader := r, trace := [.openMapping] }
        else if !env.mapOk then
          { ok := false, reader := r, trace := [.openMapping, .mapFile, .closeHandle] }
        else
          { ok := true
            reader := { r with
              map_handle := true
              map_view := true
              state := { r.state with connected := true } }
            trace := [.openMapping, .mapFile] }
    | none =>
        { ok := false
          reader := { r with state := { r.state with connected := false } }
          trace := [.openMapping] }

/-- `TelemetryReader::cleanup` (`telemetry.rs` lines 163-174): if the
view is non-null, unmap it and null it; then, if the handle is valid,
close it and reset it to the invalid default. Returns the reader after
the call and the OS calls issued, in order. -/
def TelemetryReader.cleanup (r : TelemetryReader) : TelemetryReader × List WinAct :=
  let p1 : TelemetryReader × List WinAct :=
    if r.map_view then ({ r with map_view := false }, [WinAct.unmapFile])
    else (r, [])
  let p2 : TelemetryReader × List WinAct :=
    if p1.1.map_handle then ({ p1.1 with map_handle := false }, [WinAct.closeHandle])
    else (p1.1, [])
  (p2.1, p1.2 ++ p2.2)

/-- `TelemetryReader::update` (`telemetry.rs` lines 176-217, Windows
branch). While `state.connected`: a null view flips `connected` to
false and yields `Disconnected`; otherwise the header is copied out of
the view (a plain read with no failure path and no state change) and
no event is produced — job detection is left as a TODO in the source.
While not connected: try `connect`; on success set `game = Some(Ets2)`
and yield `Connected(Ets2)`, else yield nothing. -/
def TelemetryReader.update (env : WinEnv) (r : TelemetryReader) :
    TelemetryReader × Option TelemetryEvent :=
  if r.state.connected then
    if !r.map_view then
      ({ r with state := { r.state with connected := false } }, some .disconnected)
    else
      (r, none)
  else
    let c := r.connect env
    if c.ok then
      ({ c.reader with state := { c.reader.state with game := some Game.ets2 } },
        some (.connected Game.ets2))
    else
      (c.reader, none)

/-- Session data (`auth.rs`, struct `Session`); `expires_at` is a chrono
Utc timestamp, embedded as `Int`. -/
structure Session where
  access_token : String
  user_id : String
  display_name : String
  avatar_url : Option String
  expires_at : Int
deriving DecidableEq, Repr

/-- `Session::is_expired` (`auth.rs` lines 18-23): the session is
expired iff now >= expires_at. The clock is the explicit `now`. -/
def Session.isExpired (now : Int) (s : Session) : Bool :=
  decide (s.expires_at ≤ now)

/-- Authentication state (`auth.rs`, struct `AuthManager`). -/
structure AuthManager where
  session : Option Session
deriving DecidableEq, Repr

/-- `AuthManager::get_session` (`auth.rs` lines 43-52): the stored
session if present and not expired, otherwise None. -/
def AuthManager.getSession (now : Int) (m : AuthManager) : Option Session :=
  match m.session with
  | some s => if s.isExpired now then none else some s
  | none => none

/-- `AuthManager::get_access_token` (`auth.rs` lines 55-57): the access
token of the valid session, if any. -/
def AuthManager.getAccessToken (now : Int) (m : AuthManager) : Option String :=
  (m.getSession now).map (fun s => s.access_token)

/-- Submission payload (`sync.rs`, struct `JobSubmission`). The f64
fields `revenue` and `damage_percent` are embedded as `Nat` carrying
the exact integers the dispatcher writes into them; `telemetry_data`
(an optional JSON value, always None in the dispatcher) is embedded as
`Option String`. -/
structure JobSubmission where
  game : String
  cargo : String
  source_city : String
  destination_city : String
  distance_km : Nat
  revenue : Nat
  damage_percent : Nat
  truck_id : Option String
  trailer_id : Option String
  telemetry_data : Option String
  server : Option String
deriving DecidableEq, Repr

/-- The payload `start_telemetry` builds from a completed job
(`commands.rs` lines 222-234). -/
def buildSubmission (job : ActiveJob) : JobSubmission :=
  { game := "ets2"
    cargo := job.cargo
    source_city := job.source_city
    destination_city := job.destination_city
    distance_km := job.distance_km
    revenue := job.revenue
    damage_percent := 0
    truck_id := none
    trailer_id := none
    telemetry_data := none
    server := none }

/-- One observable action of an iteration of the poll/dispatch loop in
`start_telemetry` (`commands.rs` lines 176-247), in program order.
`submitAwait` records that `state.api.submit_job` is called AND awaited
inline in the loop body; a spawned (non-blocking) submission would be a
different action, which the code never performs. -/
inductive LoopAct where
  | tickAwait
  | updateTel
  | emitState
  | logConnected
  | logDisconnected
  | logJob
  | fetchToken
  | submitAwait (token : String) (sub : JobSubmission)
  | logSubmitError
  | spawnSubmit (token : String) (sub : JobSubmission)
deriving DecidableEq, Repr

/-- The event-handling step of one loop iteration (`commands.rs` lines
202-245). `Connected` and `Disconnected` are only logged; `JobStarted`
falls into the catch-all arm and does nothing; `JobCompleted` logs,
fetches the token from the auth manager, and — only when a token is
present — awaits `submit_job` once, logging on error. `submitOk` is the
oracle for the network outcome of that call. -/
def handleEvent (ev : TelemetryEvent) (token : Option String) (submitOk : Bool) :
    List LoopAct :=
  match ev with
  | .connected _ => [.logConnected]
  | .disconnected => [.logDisconnected]
  | .jobStarted => []
  | .jobCompleted job =>
      [.logJob, .fetchToken] ++
        match token with
        | some t =>
            [.submitAwait t (buildSubmission job)] ++
              if submitOk then [] else [.logSubmitError]
        | none => []

/-- Inputs of one loop iteration: the event `update` returned, the
token the auth manager would yield, and the network outcome oracle. -/
structure TickInput where
  ev : Option TelemetryEvent
  token : Option String
  submitOk : Bool

/-- One iteration of the poll loop (`commands.rs` lines 179-246):
await the interval tick, lock and update the reader, emit the snapshot
to the frontend, then handle the event, if any. -/
def loopBody (inp : TickInput) : List LoopAct :=
  [.tickAwait, .updateTel, .emitState] ++
    match inp.ev with
    | some e => handleEvent e inp.token inp.submitOk
    | none => []

/-- The action trace of successive loop iterations; iterations are
strictly sequential inside the single spawned task. -/
def loopTrace : List TickInput → List LoopAct
  | [] => []
  | i :: rest => loopBody i ++ loopTrace rest

/-- The submit calls contained in a trace, with their payloads. -/
def submitsOf (tr : List LoopAct) : List (String × JobSubmission) :=
  tr.filterMap fun a =>
    match a with
    | .submitAwait t s => some (t, s)
    | _ => none

/-- True unless the action is an inline-awaited submission. -/
def notSubmitAwait (a : LoopAct) : Bool :=
  match a with
  | .submitAwait _ _ => false
  | _ => true

/-- Rust byte slicing `&s[..n]` on a UTF-8 string, on the char list of
the string: `some` of the sliced prefix when byte index n is in range
and falls on a character boundary, `none` when the slice panics. -/
def rustSliceTo (n : Nat) (cs : List Char) : Option (List Char) :=
  match n, cs with
  | 0, _ => some []
  | _ + 1, [] => none
  | m + 1, c :: rest =>
      if c.utf8Size ≤ m + 1 then
        (rustSliceTo (m + 1 - c.utf8Size) rest).map (fun l => c :: l)
      else
        none

/-- Outcome of the first step of `verify_device_code` (`commands.rs`
line 75): the handler slices the code to its first 2 bytes for the log
line before any network call, so the whole command either panics on
that slice or proceeds to the network call. -/
inductive VerifyOutcome where
  | panicked
  | networkCall
deriving DecidableEq, Repr

/-- `verify_device_code` up to its first fallible operation: the log
slice `&code[..2]` happens before `state.api.verify_code` is called. -/
def verifyDeviceCodeEntry (code : List Char) : VerifyOutcome :=
  match rustSliceTo 2 code with
  | none => .panicked
  | some _ => .networkCall

/-! Concrete fixtures used by witnesses and counterexamples. -/

/-- A concrete active job. -/
def job0 : ActiveJob :=
  { cargo := "steel"
    source_city := "Berlin"
    destination_city := "Paris"
    distance_km := 500
    distance_remaining := 120
    revenue := 12000
    started_at := 1700000000 }

/-- Environment where the producer mapping is absent. -/
def env0 : WinEnv := { openRes := none, mapOk := false }

/-- Environment where the open succeeds but mapping the view fails. -/
def envMapFail : WinEnv := { openRes := some true, mapOk := false }

/-- A connected-flagged reader whose view pointer is null but whose
handle is still valid, with an active job recorded in the snapshot. -/
def readerNullView : TelemetryReader :=
  { state :=
      { connected := true
        game := some Game.ets2
        speed := 0.0
        current_city := none
        active_job := some job0 }
    map_handle := true
    map_view := false
    job_started := false }

/-- A fully connected reader: valid handle and non-null view. -/
def readerConnected : TelemetryReader :=
  { state :=
      { connected := true
        game := some Game.ets2
        speed := 0.0
        current_city := none
        active_job := none }
    map_handle := true
    map_view := true
    job_started := false }

/-- A tick whose update produced a completed job while a token is
available. -/
def tickSubmit : TickInput :=
  { ev := some (.jobCompleted job0), token := some "tok", submitOk := true }

/-- A quiet tick: no event. -/
def tickIdle : TickInput :=
  { ev := none, token := none, submitOk := true }

/-! Theorems settling the claims. -/

/-- Claim C1: the claim states that a tick in the Connected state with a
successful read, no prior active job, and plausible job fields emits
`JobStarted` and stores the new `ActiveJob`. The code never does this:
job-field reading is an explicit TODO in `update`, so no tick of the
code ever emits `JobStarted` (nor ever stores an `ActiveJob`). -/
theorem update_never_emits_jobStarted (env : WinEnv) (r : TelemetryReader) :
    (r.update env).2 ≠ some TelemetryEvent.jobStarted := by
  cases hc : r.state.connected <;> cases hv : r.map_view <;>
    cases hok : (r.connect env).ok <;>
    simp [TelemetryReader.update, hc, hv, hok]

/-- Witness for C1 at a concrete reader and environment. -/
theorem update_never_emits_jobStarted_witness :
    (TelemetryReader.new.update env0).2 ≠ some TelemetryEvent.jobStarted :=
  update_never_emits_jobStarted env0 TelemetryReader.new

/-- Claim C2: the claim states that a tick in the Connected state with
an active job whose fields are now absent or plausibly completed clears
`active_job` and emits `JobCompleted` with the pre-clear snapshot. The
code never does this: `update` never emits `JobCompleted` for any job
payload, in any state and environment. -/
theorem update_never_emits_jobCompleted (env : WinEnv) (r : TelemetryReader)
    (job : ActiveJob) :
    (r.update env).2 ≠ some (TelemetryEvent.jobCompleted job) := by
  cases hc : r.state.connected <;> cases hv : r.map_view <;>
    cases hok : (r.connect env).ok <;>
    simp [TelemetryReader.update, hc, hv, hok]

/-- Witness for C2 at a concrete reader, environment and job. -/
theorem update_never_emits_jobCompleted_witness :
    (TelemetryReader.new.update env0).2 ≠ some (TelemetryEvent.jobCompleted job0) :=
  update_never_emits_jobCompleted env0 TelemetryReader.new job0

/-- Claim C3, counterexample: at a connected reader whose view is null
and whose handle is still valid, the tick does emit `Disconnected` and
flips the connected flag, but it does NOT release the mapping handle
(the handle is still valid after the call) and does NOT drop the
in-progress active job (the snapshot still carries it). -/
theorem update_disconnect_cex :
    (readerNullView.update env0).2 = some TelemetryEvent.disconnected ∧
    (readerNullView.update env0).1.map_handle = true ∧
    (readerNullView.update env0).1.state.active_job = some job0 := by
  exact ⟨rfl, rfl, rfl⟩

/-- Claim C3, amended: on a tick where `state.connected` is true and
the view pointer is null, `update` only flips `connected` to false and
emits exactly one `Disconnected` event; the handle, the view field and
the active job are untouched — release happens only in `cleanup`,
which `update` never calls. -/
theorem update_disconnect_amended (env : WinEnv) (r : TelemetryReader)
    (hc : r.state.connected = true) (hv : r.map_view = false) :
    r.update env =
      ({ r with state := { r.state with connected := false } },
        some TelemetryEvent.disconnected) := by
  simp [TelemetryReader.update, hc, hv]

/-- Witness for the amended C3 at a concrete reader. -/
theorem update_disconnect_amended_witness :
    readerNullView.update env0 =
      ({ readerNullView with
          state := { readerNullView.state with connected := false } },
        some TelemetryEvent.disconnected) :=
  update_disconnect_amended env0 readerNullView rfl rfl

/-- Claim C4: on a `JobCompleted` event, when no token is present the
handler only logs and queries the token — no submission, no queueing,
no retry, and the handler returns normally so the loop continues; when
a token is present it performs exactly one submit call, whose payload
is built from the job snapshot. -/
theorem jobCompleted_dispatch (job : ActiveJob) (ok : Bool) :
    handleEvent (.jobCompleted job) none ok = [.logJob, .fetchToken] ∧
    ∀ t, submitsOf (handleEvent (.jobCompleted job) (some t) ok) =
      [(t, buildSubmission job)] := by
  refine ⟨rfl, fun t => ?_⟩
  cases ok <;> simp [handleEvent, submitsOf]

/-- Claim C5: the claim states the loop does not wait for the
submission before the next tick. Evaluating the loop over a submitting
tick followed by an idle tick shows the submit call is awaited inline,
in program order strictly before the next iteration begins: the body
of the submitting tick contains `submitAwait` and only after it come
the `tickAwait` and `updateTel` of the following iteration. -/
theorem submit_awaited_before_next_tick :
    loopTrace [tickSubmit, tickIdle] =
      [.tickAwait, .updateTel, .emitState, .logJob, .fetchToken,
        .submitAwait "tok" (buildSubmission job0),
        .tickAwait, .updateTel, .emitState] ∧
    (loopBody tickSubmit).all notSubmitAwait = false := by
  exact ⟨rfl, rfl⟩

/-- Claim C6: calling `connect` while already connected (valid handle
and non-null view) issues no OS call at all (empty trace, hence no open
and no map), changes no state, and returns success. -/
theorem connect_idempotent_when_connected (env : WinEnv) (r : TelemetryReader)
    (hh : r.map_handle = true) (hv : r.map_view = true) :
    r.connect env = { ok := true, reader := r, trace := [] } := by
  simp [TelemetryReader.connect, hh, hv]

/-- Witness for C6 at a concrete connected reader. -/
theorem connect_idempotent_witness :
    readerConnected.connect env0 =
      { ok := true, reader := readerConnected, trace := [] } :=
  connect_idempotent_when_connected env0 readerConnected rfl rfl

/-- Claim C7: a failing `connect` from a disconnected reader (handle
invalid, view null, connected flag false) leaves the reader exactly as
it was — still disconnected, no handle retained — and whenever a valid
handle was acquired during the attempt (open returned Ok with a valid
handle; failure then means the map failed) the trace contains the
matching `CloseHandle`, so no handle dangles. -/
theorem connect_failure_no_leak (env : WinEnv) (r : TelemetryReader)
    (hh : r.map_handle = false) (hv : r.map_view = false)
    (hc : r.state.connected = false)
    (hf : (r.connect env).ok = false) :
    (r.connect env).reader = r ∧
    (r.connect env).reader.map_handle = false ∧
    (r.connect env).reader.state.connected = false ∧
    (env.openRes = some true → WinAct.closeHandle ∈ (r.connect env).trace) := by
  obtain ⟨⟨c, g, sp, cc, aj⟩, mh, mv, js⟩ := r
  simp only at hh hv hc
  subst hh hv hc
  cases ho : env.openRes with
  | none => simp [TelemetryReader.connect, ho]
  | some hvalid =>
      cases hvalid with
      | false => simp [TelemetryReader.connect, ho]
      | true =>
          cases hm : env.mapOk with
          | false => simp [TelemetryReader.connect, ho, hm]
          | true => simp [TelemetryReader.connect, ho, hm] at hf

/-- Witness for C7: the open succeeds, the map fails; the fresh reader
is returned unchanged and the acquired handle is closed. -/
theorem connect_failure_no_leak_witness :
    (TelemetryReader.new.connect envMapFail).reader = TelemetryReader.new ∧
    (TelemetryReader.new.connect envMapFail).reader.map_handle = false ∧
    (TelemetryReader.new.connect envMapFail).reader.state.connected = false ∧
    (envMapFail.openRes = some true →
      WinAct.closeHandle ∈ (TelemetryReader.new.connect envMapFail).trace) :=
  connect_failure_no_leak envMapFail TelemetryReader.new rfl rfl rfl rfl

/-- Claim C8: `cleanup` is idempotent — a second call straight after a
first one returns the already-released reader unchanged and issues no
OS call at all (no unmap, no close, hence no double free) — and a
single call on a reader holding both the view and the handle unmaps
the view strictly before closing the handle. -/
theorem cleanup_idempotent (r : TelemetryReader) :
    (r.cleanup.1).cleanup = (r.cleanup.1, []) ∧
    (r.map_view = true → r.map_handle = true →
      r.cleanup.2 = [WinAct.unmapFile, WinAct.closeHandle]) := by
  obtain ⟨st, mh, mv, js⟩ := r
  cases mh <;> cases mv <;> simp [TelemetryReader.cleanup]

/-- Witness for C8 at a fully connected reader: the release trace is
unmap-then-close and the immediate second call is a silent no-op. -/
theorem cleanup_idempotent_witness :
    (readerConnected.cleanup.1).cleanup = (readerConnected.cleanup.1, []) ∧
    readerConnected.cleanup.2 = [WinAct.unmapFile, WinAct.closeHandle] :=
  ⟨(cleanup_idempotent readerConnected).1,
    (cleanup_idempotent readerConnected).2 rfl rfl⟩

/-- Claim C9: the log slice `&code[..2]` in `verify_device_code` is
performed before any network call and panics on inputs shorter than 2
bytes (empty string, one ASCII char) and on inputs where byte index 2
is not a character boundary (an ASCII char followed by a two-byte
char); a two-ASCII-char code passes and reaches the network call. -/
theorem verify_code_slice_panics :
    verifyDeviceCodeEntry [] = VerifyOutcome.panicked ∧
    verifyDeviceCodeEntry ['a'] = VerifyOutcome.panicked ∧
    verifyDeviceCodeEntry ['a', 'é'] = VerifyOutcome.panicked ∧
    verifyDeviceCodeEntry ['a', 'b'] = VerifyOutcome.networkCall := by
  refine ⟨rfl, ?_, ?_, ?_⟩ <;> decide

/-- Claim C10: `get_access_token` yields a token exactly when a session
is stored and the clock is strictly before its expiry; a stored but
expired session (now at or past `expires_at`) yields none, exactly as
when logged out. -/
theorem get_access_token_some_iff (now : Int) (m : AuthManager) (t : String) :
    m.getAccessToken now = some t ↔
      ∃ s, m.session = some s ∧ now < s.expires_at ∧ s.access_token = t := by
  obtain ⟨sess⟩ := m
  cases sess with
  | none =>
      simp [AuthManager.getAccessToken, AuthManager.getSession]
  | some s =>
      by_cases h : s.expires_at ≤ now
      · simp [AuthManager.getAccessToken, AuthManager.getSession,
          Session.isExpired, h, not_lt.mpr h]
      · simp [AuthManager.getAccessToken, AuthManager.getSession,
          Session.isExpired, h, lt_of_not_le h]
